import Mathlib

/-!
Verification of the Economic-Advisor backend's derived-metric tools.

This file gives a shallow embedding, in Lean 4, of the numeric/formatting
logic of the repository's tool layer:

* `backend/app/tools/fred.py` — `get_fred_data`, `get_inflation_rate`
  (the YoY change calculator) and `get_interest_rate` (metric formatting
  with threshold assessments);
* `backend/app/tools/exchange.py` — `get_exchange_rate` and
  `get_purchasing_power` (the purchasing-power converter).

Network fetches are modelled by passing the fetched payload as an explicit
argument (a `FredFetch` / `ExchangeFetch` value); `datetime.now()` is
modelled by an explicit `today` argument.  Python floats are modelled by
rationals (`ℚ`); all the claims under study involve exact decimal
arithmetic, never float-rounding behaviour.  Python's `float(...)` parse
of a FRED value string (which raises `ValueError` on the missing-value
sentinel `"."`) is modelled by `parseFloat : String → Option ℚ`.
Functions that in Python build one big output string are modelled either
as the literal string (when no numeric formatting is involved) or as a
structured record carrying every datum the string interpolates.
-/

/-- A FRED observation as returned by the API: a date string
(`YYYY-MM-DD`, so lexicographic order is chronological order) and a raw
value string (`"."` is FRED's missing-value sentinel). -/
structure Obs where
  date : String
  value : String
  deriving DecidableEq

/-- The result of `_fetch_fred_data`: either the payload carries an
`error` entry, or it carries a (possibly empty) list of observations.
A missing `observations` key is modelled as the empty list, since the
source treats the two identically (`"observations" not in result or not
result["observations"]`). -/
structure FredFetch where
  error : Option String
  observations : List Obs
  deriving DecidableEq

/-- Splits a list of characters into its longest digit prefix and the
rest (helper for the model of Python `float` parsing). -/
def takeDigits : List Char → List Char × List Char
  | [] => ([], [])
  | c :: cs =>
    if c.isDigit then
      match takeDigits cs with
      | (ds, rest) => (c :: ds, rest)
    else ([], c :: cs)

/-- Numeric value of a list of decimal digit characters. -/
def digitsToNat (ds : List Char) : ℕ :=
  ds.foldl (fun acc c => acc * 10 + (c.toNat - 48)) 0

/-- Parses an unsigned decimal number (`"104"`, `"3.2"`, `"3."`,
`".5"`); fails when there is no digit at all or a stray character. -/
def parseFloatAux (s : List Char) : Option ℚ :=
  match takeDigits s with
  | (intPart, rest) =>
    match rest with
    | [] => if intPart.isEmpty then none else some (digitsToNat intPart)
    | '.' :: frac =>
      if frac.all (fun c => c.isDigit) && (!intPart.isEmpty || !frac.isEmpty) then
        some ((digitsToNat intPart : ℚ) + (digitsToNat frac : ℚ) / (10 ^ frac.length))
      else none
    | _ => none

/-- Model of Python `float(s)` on FRED-style decimal value strings:
`some q` when the string is a (possibly signed) decimal numeral, `none`
when `float` would raise `ValueError` — in particular
`parseFloat "." = none`, matching FRED's missing-value sentinel. -/
def parseFloat (s : String) : Option ℚ :=
  match s.data with
  | '-' :: rest => (parseFloatAux rest).map (fun q => -q)
  | '+' :: rest => parseFloatAux rest
  | l => parseFloatAux l

/-- The `"-" * 40` separator line used by the formatters. -/
def dashes40 : String := String.mk (List.replicate 40 '-')

/-- Embedding of `get_fred_data` (fred.py lines 142-160), after the
fetch: the full returned string.  `now` stands for `datetime.now()`
formatted as in the source.  The observation loop prints every
observation whose value is not the `"."` sentinel. -/
def get_fred_data (now : String) (series_id : String) (fetch : FredFetch) : String :=
  match fetch.error with
  | some e => "Error: " ++ e
  | none =>
    if fetch.observations.isEmpty then
      "No data found for series " ++ series_id
    else
      String.intercalate "\n"
        (["FRED Data for " ++ series_id ++ ":",
          "Data retrieved: " ++ now,
          dashes40] ++
         fetch.observations.filterMap (fun o =>
           if o.value ≠ "." then some ("  " ++ o.date ++ ": " ++ o.value) else none))

/-- One step of the YoY loop body (fred.py lines 210-223) at index `i`:
`some (date, pct)` when both `float` conversions succeed and the
denominator is non-zero, `none` when the `try` block is skipped by
`ValueError` / `ZeroDivisionError`. -/
def yoyEntry (observations : List Obs) (k i : ℕ) : Option (String × ℚ) :=
  match observations.get? i, observations.get? (i - k) with
  | some current, some year_ago =>
    match parseFloat current.value, parseFloat year_ago.value with
    | some current_val, some year_ago_val =>
      if year_ago_val = 0 then none
      else some (current.date, (current_val - year_ago_val) / year_ago_val * 100)
    | _, _ => none
  | _, _ => none

/-- The YoY change calculator loop (fred.py lines 209-223), generalised
from the source's fixed offset `12` to an arbitrary offset `k`: for
`i` in `range(k, len(observations))`, append the percent change when the
pair parses and the denominator is non-zero, else continue. -/
def yoyChanges (k : ℕ) (observations : List Obs) : List (String × ℚ) :=
  (List.range' k (observations.length - k)).filterMap (yoyEntry observations k)

/-- The insufficient-data message of `get_inflation_rate`
(fred.py line 197). -/
def insufficientDataMsg : String :=
  "Insufficient data to calculate year-over-year inflation rates."

/-- Ascending sort by date string (model of
`sorted(observations, key=lambda x: x["date"])`, fred.py line 201). -/
def sortByDate (observations : List Obs) : List Obs :=
  List.insertionSort (fun a b => a.date ≤ b.date) observations

/-- The YoY change calculator as a component (fred.py lines 196-223,
generalised from offset `12` to `k`): fail when fewer than `k + 1`
observations were fetched (source: `len(result["observations"]) < 13`),
else sort ascending by date and compute the per-pair changes.  In the
failing case no per-pair computation is reached. -/
def yoyCalculator (k : ℕ) (observations : List Obs) : Except String (List (String × ℚ)) :=
  if observations.length < k + 1 then .error insufficientDataMsg
  else .ok (yoyChanges k (sortByDate observations))

/-- The assessment chain of `get_inflation_rate` (fred.py lines
235-242), applied to the latest YoY rate. -/
def inflationAssessment (latest : ℚ) : String :=
  if latest > 4 then "Assessment: Inflation is elevated above the Fed's 2% target."
  else if latest > 2.5 then "Assessment: Inflation is moderately above the Fed's 2% target."
  else if latest > 1.5 then "Assessment: Inflation is near the Fed's 2% target range."
  else "Assessment: Inflation is below the Fed's 2% target."

/-- The data interpolated into `get_inflation_rate`'s report when enough
observations exist: the rates printed (most recent first), and — when at
least one YoY rate was computed — the latest rate and its assessment. -/
structure InflationReport where
  shownRates : List (String × ℚ)
  currentRate : Option ℚ
  assessment : Option String
  deriving DecidableEq

/-- Outcome of `get_inflation_rate` after the fetch. -/
inductive InflationResult where
  | fetchError (msg : String)
  | insufficientData (msg : String)
  | report (r : InflationReport)
  deriving DecidableEq

/-- Model of Python `lst[-min(m, len(lst)):]` as used on `yoy_rates`
(fred.py line 226); note that in Python `lst[-0:]` is the whole list. -/
def lastSlice (m : ℕ) (l : List (String × ℚ)) : List (String × ℚ) :=
  if min m l.length = 0 then l else l.drop (l.length - min m l.length)

/-- Embedding of `get_inflation_rate` (fred.py lines 163-244) after the
fetch.  The source fixes the YoY offset to 12 months. -/
def get_inflation_rate (months_back : ℕ) (fetch : FredFetch) : InflationResult :=
  match fetch.error with
  | some e => .fetchError ("Error: " ++ e)
  | none =>
    match yoyCalculator 12 fetch.observations with
    | .error m => .insufficientData m
    | .ok yoy_rates =>
      let latest := yoy_rates.getLast?.map (fun p => p.2)
      .report
        { shownRates := (lastSlice months_back yoy_rates).reverse,
          currentRate := latest,
          assessment := latest.map inflationAssessment }

/-- The context chain of `get_interest_rate` for the federal-funds rate
(fred.py lines 334-339), applied to the most recent valid value. -/
def fedFundsContext (rate : ℚ) : String :=
  if rate > 5 then "Context: The Fed Funds rate is relatively high, indicating tight monetary policy."
  else if rate > 2 then "Context: The Fed Funds rate is moderate."
  else "Context: The Fed Funds rate is low, indicating accommodative monetary policy."

/-- The `rate_map` table of `get_interest_rate` (fred.py lines 268-274):
rate type → (FRED series id, display name). -/
def rate_map : List (String × String × String) :=
  [("fed_funds", ("FEDFUNDS", "Federal Funds Effective Rate")),
   ("prime", ("DPRIME", "Bank Prime Loan Rate")),
   ("treasury_10y", ("DGS10", "10-Year Treasury Constant Maturity Rate")),
   ("treasury_2y", ("DGS2", "2-Year Treasury Constant Maturity Rate")),
   ("mortgage_30y", ("MORTGAGE30US", "30-Year Fixed Rate Mortgage Average"))]

/-- Outcome of `get_interest_rate` after the fetch.  A `report` carries
every datum the source interpolates into its output: the observations
printed (`observations[:12]` after filtering), the parsed current value
and its delta from the previous one when both parse, and the optional
fed-funds context line. -/
inductive InterestResult where
  | unknownRateType (msg : String)
  | fetchError (msg : String)
  | noData (msg : String)
  | noValidData (msg : String)
  | report (shown : List Obs) (currentChange : Option (ℚ × ℚ)) (context : Option String)
  deriving DecidableEq

/-- Embedding of `get_interest_rate` (fred.py lines 247-343) after the
fetch. -/
def get_interest_rate (rate_type : String) (fetch : FredFetch) : InterestResult :=
  match rate_map.lookup rate_type with
  | none => .unknownRateType ("Unknown rate type: " ++ rate_type ++
      ". Available: fed_funds, prime, treasury_10y, treasury_2y, mortgage_30y")
  | some (_series_id, rate_name) =>
    match fetch.error with
    | some e => .fetchError ("Error: " ++ e)
    | none =>
      if fetch.observations.isEmpty then .noData ("No data found for " ++ rate_name)
      else
        let observations := fetch.observations.filter (fun o => o.value ≠ ".")
        if h : observations.isEmpty then .noValidData ("No valid data found for " ++ rate_name)
        else
          let first := observations.head (by simpa [List.isEmpty_iff] using h)
          let currentChange :=
            if observations.length ≥ 2 then
              match parseFloat first.value,
                    (observations.get? 1).bind (fun o => parseFloat o.value) with
              | some current, some previous => some (current, current - previous)
              | _, _ => none
            else none
          let context :=
            if rate_type = "fed_funds" then
              (parseFloat first.value).map fedFundsContext
            else none
          .report (observations.take 12) currentChange context

/-- The `COST_OF_LIVING_INDEX` table (exchange.py lines 63-86). -/
def COST_OF_LIVING_INDEX : List (String × ℚ) :=
  [("New York", 187), ("San Francisco", 179), ("Los Angeles", 166),
   ("Chicago", 107), ("Houston", 96), ("Miami", 123), ("Seattle", 149),
   ("Denver", 128), ("Atlanta", 107), ("Boston", 152), ("US Average", 100),
   ("London", 145), ("Paris", 119), ("Tokyo", 102), ("Sydney", 118),
   ("Toronto", 98), ("Singapore", 115), ("Hong Kong", 114), ("Zurich", 165),
   ("Berlin", 86), ("Amsterdam", 106)]

/-- Model of `COST_OF_LIVING_INDEX.get(location, 100)`
(exchange.py line 185). -/
def colIndex (location : String) : ℚ :=
  (COST_OF_LIVING_INDEX.lookup location).getD 100

/-- The `sample_locations` list of the comparison table
(exchange.py line 230). -/
def sample_locations : List String :=
  ["New York", "San Francisco", "Chicago", "Houston", "Denver", "US Average"]

/-- The data interpolated into the `Comparison to {compare_to}` section
of `get_purchasing_power` (exchange.py lines 210-222). -/
structure PPComparison where
  compareTo : String
  compareIndex : ℚ
  equivalentInCompare : ℚ
  needsMore : Bool
  difference : ℚ
  deriving DecidableEq

/-- The data interpolated into `get_purchasing_power`'s output string,
section by section: the analysis-date line, the situation block, the
normalized purchasing-power equivalent, the more/less-expensive note
(`some (isMoreExpensive, diffPct)`, absent when the index is exactly
100), the optional comparison section, and the equivalent-income table.
The source has no other output content and no failure path: it always
returns a formatted analysis. -/
structure PPAnalysis where
  analysisDate : String
  income : ℚ
  location : String
  locationIndex : ℚ
  usEquivalent : ℚ
  costNote : Option (Bool × ℚ)
  comparison : Option PPComparison
  equivalentTable : List (String × ℚ)
  deriving DecidableEq

/-- Embedding of `get_purchasing_power` (exchange.py lines 155-241).
`today` stands for `datetime.now().strftime('%Y-%m-%d')` (line 181).
The source performs no input validation: every branch ends in a normal
formatted analysis. -/
def get_purchasing_power (today : String) (income : ℚ)
    (location : String) (compare_to : Option String) : PPAnalysis :=
  let location_index := colIndex location
  let us_equivalent := income * 100 / location_index
  let costNote :=
    if location_index > 100 then
      some (true, (location_index - 100) / 100 * 100)
    else if location_index < 100 then
      some (false, (100 - location_index) / 100 * 100)
    else none
  let comparison :=
    match compare_to with
    | none => none
    | some c =>
      match COST_OF_LIVING_INDEX.lookup c with
      | none => none
      | some compare_index =>
        let equivalent_in_compare := income * compare_index / location_index
        some { compareTo := c,
               compareIndex := compare_index,
               equivalentInCompare := equivalent_in_compare,
               needsMore := equivalent_in_compare > income,
               difference :=
                 if equivalent_in_compare > income then equivalent_in_compare - income
                 else income - equivalent_in_compare }
  let equivalentTable :=
    sample_locations.filterMap (fun loc =>
      match COST_OF_LIVING_INDEX.lookup loc with
      | none => none
      | some loc_index =>
        if loc ≠ location then some (loc, income * loc_index / location_index)
        else none)
  { analysisDate := today,
    income := income,
    location := location,
    locationIndex := location_index,
    usEquivalent := us_equivalent,
    costNote := costNote,
    comparison := comparison,
    equivalentTable := equivalentTable }

/-- Uppercasing of a currency code (model of Python `str.upper()` on
ASCII codes). -/
def strUpper (s : String) : String := String.mk (s.data.map Char.toUpper)

/-- The result of `_fetch_exchange_rates`: either an `error` entry or a
rate table. -/
structure ExchangeFetch where
  error : Option String
  rates : List (String × ℚ)
  deriving DecidableEq

/-- The `major_currencies` list (exchange.py line 147). -/
def major_currencies : List String := ["EUR", "GBP", "JPY", "CAD", "AUD", "CHF"]

/-- Outcome of `get_exchange_rate` after the fetch.  `unknownCurrency`
carries the literal message string the source returns; `conversion`
carries the data interpolated into the success output (rate, converted
amount, inverse rate, and the extra context rates). -/
inductive ExchangeResult where
  | fetchError (msg : String)
  | unknownCurrency (msg : String)
  | conversion (rate converted inverse : ℚ) (others : List (String × ℚ))
  deriving DecidableEq

/-- Embedding of `get_exchange_rate` (exchange.py lines 89-152) after
the fetch. -/
def get_exchange_rate (fetch : ExchangeFetch) (from_currency to_currency : String)
    (amount : ℚ) : ExchangeResult :=
  let fromC := strUpper from_currency
  let toC := strUpper to_currency
  match fetch.error with
  | some e => .fetchError ("Error: " ++ e)
  | none =>
    match fetch.rates.lookup toC with
    | none => .unknownCurrency ("Currency code '" ++ toC ++
        "' not found. Common codes: USD, EUR, GBP, JPY, CAD, AUD, CHF, CNY")
    | some rate =>
      let converted := amount * rate
      let inverse_rate := if rate ≠ 0 then 1 / rate else 0
      let others := major_currencies.filterMap (fun curr =>
        match fetch.rates.lookup curr with
        | none => none
        | some r => if curr ≠ toC ∧ curr ≠ fromC then some (curr, r) else none)
      .conversion rate converted inverse_rate others

/-- Lexicographic comparison of character lists by code point (the
order Python string comparison and Lean `String` order both implement
on the ASCII date strings at hand). -/
def charListLE : List Char → List Char → Bool
  | [], _ => true
  | _ :: _, [] => false
  | a :: as, b :: bs =>
    if a.toNat < b.toNat then true
    else if b.toNat < a.toNat then false
    else charListLE as bs

/-- Spec-side notion (spec sections 3 and 4.1): a series is ascending
by date when each date is at most the next one. -/
def ascendingByDate : List Obs → Bool
  | [] => true
  | [_] => true
  | a :: b :: t => charListLE a.date.data b.date.data && ascendingByDate (b :: t)

/-- Spec-side notion (spec section 4.1 / section 8): index `i` forms a
valid YoY pair at distance `k` when both `S[i].value` and `S[i-k].value`
are present (parse as numbers) and the denominator `S[i-k].value` is
non-zero. -/
def validPair (observations : List Obs) (k i : ℕ) : Bool :=
  match observations.get? i, observations.get? (i - k) with
  | some current, some year_ago =>
    match parseFloat current.value, parseFloat year_ago.value with
    | some _, some year_ago_val => year_ago_val ≠ 0
    | _, _ => false
  | _, _ => false

/-- Spec-side notion (spec section 4.2): a threshold rule with optional
lower and upper bounds (absent bound = unbounded) and the assessment
label it renders. -/
structure ThresholdRule where
  lower : Option ℚ
  upper : Option ℚ
  label : String

/-- A rule's range contains a value when the value is above the lower
bound (strictly, matching the source's `>` comparisons) and at most the
upper bound. -/
def ruleContains (r : ThresholdRule) (v : ℚ) : Bool :=
  (match r.lower with | none => true | some lo => lo < v) &&
  (match r.upper with | none => true | some hi => v ≤ hi)

/-- The first rule of an ordered rule list whose range contains the
value, rendered as its label; `none` when no rule matches. -/
def firstMatch (rules : List ThresholdRule) (v : ℚ) : Option String :=
  (rules.find? (fun r => ruleContains r v)).map (fun r => r.label)

/-- The inflation assessment thresholds of fred.py lines 235-242 read as
an ordered rule list, following the spec's threshold-rule shape. -/
def inflationRules : List ThresholdRule :=
  [⟨some 4, none, "Assessment: Inflation is elevated above the Fed's 2% target."⟩,
   ⟨some 2.5, none, "Assessment: Inflation is moderately above the Fed's 2% target."⟩,
   ⟨some 1.5, none, "Assessment: Inflation is near the Fed's 2% target range."⟩,
   ⟨none, none, "Assessment: Inflation is below the Fed's 2% target."⟩]

/-- The fed-funds context thresholds of fred.py lines 334-339 read as an
ordered rule list. -/
def fedFundsRules : List ThresholdRule :=
  [⟨some 5, none, "Context: The Fed Funds rate is relatively high, indicating tight monetary policy."⟩,
   ⟨some 2, none, "Context: The Fed Funds rate is moderate."⟩,
   ⟨none, none, "Context: The Fed Funds rate is low, indicating accommodative monetary policy."⟩]

/-- A returned string is a no-data message exactly when it is one of the
source's no-data returns, all of which start with `"No "` (`"No data
found..."`, `"No valid data found..."`); the formatted data reports all
start otherwise. -/
def isNoDataMessage (s : String) : Bool :=
  s.data.take 3 = ['N', 'o', ' ']

/-- A 13-month CPI series whose month-1 value is 100 and whose month-13
value is 104 (spec section 8's concrete YoY example). -/
def cpiSample : List Obs :=
  [⟨"2024-01-01", "100"⟩, ⟨"2024-02-01", "100"⟩, ⟨"2024-03-01", "100"⟩,
   ⟨"2024-04-01", "100"⟩, ⟨"2024-05-01", "100"⟩, ⟨"2024-06-01", "100"⟩,
   ⟨"2024-07-01", "100"⟩, ⟨"2024-08-01", "100"⟩, ⟨"2024-09-01", "100"⟩,
   ⟨"2024-10-01", "100"⟩, ⟨"2024-11-01", "100"⟩, ⟨"2024-12-01", "100"⟩,
   ⟨"2025-01-01", "104"⟩]

/-- A 14-month CPI series with a missing (`"."`) month-2 value: the
month-14 pair is invalid and must be skipped, the month-13 pair is
valid. -/
def cpiSampleGap : List Obs :=
  [⟨"2024-01-01", "100"⟩, ⟨"2024-02-01", "."⟩, ⟨"2024-03-01", "100"⟩,
   ⟨"2024-04-01", "100"⟩, ⟨"2024-05-01", "100"⟩, ⟨"2024-06-01", "100"⟩,
   ⟨"2024-07-01", "100"⟩, ⟨"2024-08-01", "100"⟩, ⟨"2024-09-01", "100"⟩,
   ⟨"2024-10-01", "100"⟩, ⟨"2024-11-01", "100"⟩, ⟨"2024-12-01", "100"⟩,
   ⟨"2025-01-01", "104"⟩, ⟨"2025-02-01", "105"⟩]

/-- C4: the YoY change calculator (the `get_inflation_rate` core,
generalised over the offset `k`; the source instantiates `k = 12` via
its `len(...) < 13` check) fails with the insufficient-data error
exactly when the fetched series has at most `k` observations, i.e.
fewer than `k + 1`; in the failing case the error is returned before
any per-pair computation. -/
theorem yoyCalculator_insufficient_iff (k : ℕ) (observations : List Obs) :
    yoyCalculator k observations = .error insufficientDataMsg ↔
      observations.length ≤ k := by
  unfold yoyCalculator
  split
  · simp_all
    omega
  · simp_all
    omega

/-- C8: for every most recent value `v`, the assessment line rendered by
`get_inflation_rate` and the context line rendered by
`get_interest_rate` for the fed-funds rate are exactly the label of the
first threshold rule (in the spec's ordered-rule reading of the source's
`if`/`elif` chains) whose range contains `v`; the cores apply these to
the most recent value (`currentRate.map inflationAssessment`,
`(parseFloat first.value).map fedFundsContext`). -/
theorem assessment_is_first_matching_rule (v : ℚ) :
    firstMatch inflationRules v = some (inflationAssessment v) ∧
    firstMatch fedFundsRules v = some (fedFundsContext v) := by
  constructor
  · unfold firstMatch inflationRules ruleContains inflationAssessment
    by_cases h4 : (4 : ℚ) < v <;> by_cases h25 : (2.5 : ℚ) < v <;>
      by_cases h15 : (1.5 : ℚ) < v <;>
      simp [List.find?, h4, h25, h15, gt_iff_lt]
  · unfold firstMatch fedFundsRules ruleContains fedFundsContext
    by_cases h5 : (5 : ℚ) < v <;> by_cases h2 : (2 : ℚ) < v <;>
      simp [List.find?, h5, h2, gt_iff_lt]

/-- Helper: a `filterMap` has as many elements as there are list
positions on which the function succeeds. -/
theorem length_filterMap_eq_length_filter {α β : Type} (f : α → Option β) (p : α → Bool)
    (h : ∀ a, (f a).isSome = p a) (l : List α) :
    (l.filterMap f).length = (l.filter p).length := by
  induction l with
  | nil => rfl
  | cons a t ih =>
    have ha := h a
    cases hfa : f a with
    | none =>
      rw [hfa] at ha
      simp [List.filterMap_cons, List.filter_cons, hfa, ← ha, ih]
    | some b =>
      rw [hfa] at ha
      simp [List.filterMap_cons, List.filter_cons, hfa, ← ha, ih]

/-- Helper: the YoY loop body succeeds at index `i` exactly when `i`
forms a valid pair in the spec's sense. -/
theorem yoyEntry_isSome_eq_validPair (observations : List Obs) (k i : ℕ) :
    (yoyEntry observations k i).isSome = validPair observations k i := by
  unfold yoyEntry validPair
  rcases hci : observations.get? i with _ | current
  · simp [hci]
  rcases hai : observations.get? (i - k) with _ | year_ago
  · simp [hci, hai]
  rcases hpc : parseFloat current.value with _ | current_val
  · simp [hci, hai, hpc]
  rcases hpa : parseFloat year_ago.value with _ | year_ago_val
  · simp [hci, hai, hpc, hpa]
  by_cases h : year_ago_val = 0 <;> simp [hci, hai, hpc, hpa, h]

/-- C2: on an ascending-by-date series, for every index `i ≥ k` whose
value and whose value `k` periods earlier both parse, with a non-zero
earlier value, the YoY change calculator produces the pair
`(S[i].date, (S[i].value - S[i-k].value) / S[i-k].value * 100)`. -/
theorem yoy_percent_change (observations : List Obs) (k i : ℕ)
    (current_val year_ago_val : ℚ)
    (hasc : ascendingByDate observations = true)
    (hi : i < observations.length) (hk : k ≤ i)
    (hc : parseFloat ((observations.get ⟨i, hi⟩).value) = some current_val)
    (ha : parseFloat ((observations.get
        ⟨i - k, Nat.lt_of_le_of_lt (Nat.sub_le i k) hi⟩).value) = some year_ago_val)
    (h0 : year_ago_val ≠ 0) :
    ((observations.get ⟨i, hi⟩).date,
      (current_val - year_ago_val) / year_ago_val * 100) ∈ yoyChanges k observations := by
  unfold yoyChanges
  refine List.mem_filterMap.mpr ⟨i, ?_, ?_⟩
  · rw [List.mem_range'_1]
    omega
  · unfold yoyEntry
    rw [List.get?_eq_get hi,
        List.get?_eq_get (Nat.lt_of_le_of_lt (Nat.sub_le i k) hi)]
    simp only [hc, ha]
    simp [h0]

/-- Witness for C2: at offset 12 on `cpiSample`, month 13 gets the pair
`("2025-01-01", (104 - 100) / 100 * 100)`, and that rate equals 4. -/
theorem yoy_percent_change_witness :
    ("2025-01-01", ((104 : ℚ) - 100) / 100 * 100) ∈ yoyChanges 12 cpiSample ∧
    ((104 : ℚ) - 100) / 100 * 100 = 4 := by
  constructor
  · exact yoy_percent_change cpiSample 12 12 104 100 (by decide) (by decide) (by decide)
      (by norm_num +decide [cpiSample, parseFloat, parseFloatAux, takeDigits, digitsToNat])
      (by norm_num +decide [cpiSample, parseFloat, parseFloatAux, takeDigits, digitsToNat])
      (by norm_num)
  · norm_num

/-- C3: on an ascending-by-date series with offset `k < len(S)`, the
YoY change calculator outputs exactly one entry per valid pair (both
values present, non-zero denominator) at distance `k`, and no entry for
any invalid pair: its output length is the number of valid indices in
`range(k, len(S))`. -/
theorem yoy_output_length (observations : List Obs) (k : ℕ)
    (hasc : ascendingByDate observations = true)
    (hk : k < observations.length) :
    (yoyChanges k observations).length =
      ((List.range' k (observations.length - k)).filter (validPair observations k)).length := by
  unfold yoyChanges
  exact length_filterMap_eq_length_filter _ _
    (yoyEntry_isSome_eq_validPair observations k) _

/-- Witness for C3 on `cpiSampleGap` at offset 12. -/
theorem yoy_output_length_witness :
    (yoyChanges 12 cpiSampleGap).length =
      ((List.range' 12 (cpiSampleGap.length - 12)).filter (validPair cpiSampleGap 12)).length :=
  yoy_output_length cpiSampleGap 12 (by decide) (by decide)

/-- Counterexample to C5: a series that is non-empty but whose every
value is the missing sentinel `"."` is empty after filtering, yet
`get_fred_data` does not return a "no data" message — it returns the
formatted report header with no observation lines (and, the embedding
being total, no exception either). -/
theorem fred_all_missing_not_no_data :
    get_fred_data "2025-06-01 12:00 UTC" "CPIAUCSL" ⟨none, [⟨"2025-05-01", "."⟩]⟩ =
      "FRED Data for CPIAUCSL:\nData retrieved: 2025-06-01 12:00 UTC\n" ++ dashes40 ∧
    isNoDataMessage
      ("FRED Data for CPIAUCSL:\nData retrieved: 2025-06-01 12:00 UTC\n" ++ dashes40) = false := by
  constructor
  · rfl
  · rfl

/-- C5 as amended: `get_interest_rate` returns a "no data" message
whenever the series is empty after filtering missing values (either the
raw list was empty, or everything was filtered out), and `get_fred_data`
returns a "no data" message when the raw observation list is empty; both
are normal string results, never exceptions (the embeddings are total
functions). -/
theorem no_data_messages (now series_id rate_type sid name : String)
    (fetchF fetchI : FredFetch)
    (hrt : rate_map.lookup rate_type = some (sid, name))
    (herrF : fetchF.error = none) (hemptyF : fetchF.observations = [])
    (herrI : fetchI.error = none)
    (hfil : fetchI.observations.filter (fun o => o.value ≠ ".") = []) :
    (get_fred_data now series_id fetchF = "No data found for series " ++ series_id ∧
     isNoDataMessage ("No data found for series " ++ series_id) = true) ∧
    (get_interest_rate rate_type fetchI =
       (if fetchI.observations.isEmpty then
         InterestResult.noData ("No data found for " ++ name)
       else
         InterestResult.noValidData ("No valid data found for " ++ name)) ∧
     isNoDataMessage ("No data found for " ++ name) = true ∧
     isNoDataMessage ("No valid data found for " ++ name) = true) := by
  refine ⟨⟨?_, rfl⟩, ?_, rfl, rfl⟩
  · unfold get_fred_data
    rw [herrF]
    simp [hemptyF]
  · unfold get_interest_rate
    rw [hrt, herrI]
    by_cases he : fetchI.observations.isEmpty
    · simp [he]
    · simp only [hfil]
      simp [he]

/-- Witness for C5's amended theorem: with every value missing,
`get_interest_rate` for the fed-funds rate answers the
"no valid data" message. -/
theorem no_data_messages_witness :
    (get_fred_data "T" "CPIAUCSL" ⟨none, []⟩ = "No data found for series CPIAUCSL" ∧
     isNoDataMessage ("No data found for series CPIAUCSL") = true) ∧
    (get_interest_rate "fed_funds" ⟨none, [⟨"2025-05-01", "."⟩]⟩ =
       InterestResult.noValidData ("No valid data found for Federal Funds Effective Rate")) := by
  have h := no_data_messages "T" "CPIAUCSL" "fed_funds" "FEDFUNDS"
    "Federal Funds Effective Rate" ⟨none, []⟩ ⟨none, [⟨"2025-05-01", "."⟩]⟩
    (by rfl) (by rfl) (by rfl) (by rfl) (by decide)
  exact ⟨⟨h.1.1, h.1.2⟩, by simpa using h.2.1⟩

/-- Counterexample to C1: calling the purchasing-power converter with
income 0 does not fail with any input-validation error — the source has
no validation path at all and returns the normal formatted analysis, in
which every derived amount is 0. -/
theorem purchasing_power_zero_income_normal :
    get_purchasing_power "2025-01-01" 0 "US Average" none =
      { analysisDate := "2025-01-01", income := 0, location := "US Average",
        locationIndex := 100, usEquivalent := 0, costNote := none,
        comparison := none,
        equivalentTable := [("New York", 0), ("San Francisco", 0), ("Chicago", 0),
          ("Houston", 0), ("Denver", 0)] } := by
  norm_num +decide [get_purchasing_power, colIndex, COST_OF_LIVING_INDEX,
    sample_locations, List.lookup]

/-- Helper: a defaulted lookup in a table of positive values is
positive. -/
theorem lookup_getD_pos (l : List (String × ℚ)) (h : ∀ p ∈ l, 0 < p.2) (s : String) :
    0 < (l.lookup s).getD 100 := by
  induction l with
  | nil => norm_num [List.lookup]
  | cons p t ih =>
    cases hbe : s == p.1 with
    | true =>
      have : (List.lookup s (p :: t)).getD 100 = p.2 := by
        simp [List.lookup, hbe]
      rw [this]
      exact h p (by simp)
    | false =>
      have : (List.lookup s (p :: t)).getD 100 = (List.lookup s t).getD 100 := by
        simp [List.lookup, hbe]
      rw [this]
      exact ih (fun q hq => h q (by simp [hq]))

/-- C1 as amended: the purchasing-power converter performs no input
validation; for every income (0 and negative included) it returns the
normal formatted analysis computed by the ratio formula.  No failure can
occur: the cost-of-living index used is always positive (a table value,
all of which are positive, or the default 100). -/
theorem purchasing_power_no_validation (today : String) (income : ℚ)
    (location : String) (compare_to : Option String) :
    0 < colIndex location ∧
    (get_purchasing_power today income location compare_to).usEquivalent =
      income * 100 / colIndex location := by
  constructor
  · exact lookup_getD_pos COST_OF_LIVING_INDEX (by decide) location
  · rfl

/-- Counterexample to C6: with income 100000 in New York (index 187)
compared to US Average (index 100), the comparison equivalent is
`100000 * 100 / 187 = 10000000 / 187 ≈ 53476` — the same value as the
normalized equivalent, not the 100000 the claim asserts. -/
theorem purchasing_power_comparison_not_income :
    (get_purchasing_power "2025-01-01" 100000 "New York" (some "US Average")).comparison.map
        (fun x => x.equivalentInCompare) = some (10000000 / 187) ∧
    (10000000 / 187 : ℚ) ≠ 100000 ∧
    round (10000000 / 187 : ℚ) = 53476 := by
  refine ⟨?_, by norm_num, by norm_num [round_eq]⟩
  have h1 : COST_OF_LIVING_INDEX.lookup "US Average" = some 100 := rfl
  have h2 : colIndex "New York" = 187 := rfl
  unfold get_purchasing_power
  simp only [h1, h2]
  norm_num

/-- C6 as amended: the converter computes
`normalized_equivalent = income * 100 / location_index` and, when the
comparison location is in the table,
`equivalent_in_compare = income * compare_index / location_index`; at
income 100000, location index 187 and compare index 100 both equal
`10000000 / 187 ≈ 53476` (the comparison equivalent coincides with the
normalized one since the comparison baseline is 100). -/
theorem purchasing_power_formulas (today : String) (income : ℚ) (location c : String)
    (compare_index : ℚ)
    (hc : COST_OF_LIVING_INDEX.lookup c = some compare_index) :
    (get_purchasing_power today income location (some c)).usEquivalent =
      income * 100 / colIndex location ∧
    (get_purchasing_power today income location (some c)).comparison.map
        (fun x => x.equivalentInCompare) =
      some (income * compare_index / colIndex location) := by
  constructor
  · rfl
  · unfold get_purchasing_power
    simp [hc]

/-- Witness for C6's amended theorem at the spec's concrete inputs. -/
theorem purchasing_power_formulas_witness :
    (get_purchasing_power "2025-01-01" 100000 "New York" (some "US Average")).usEquivalent =
      100000 * 100 / colIndex "New York" ∧
    (get_purchasing_power "2025-01-01" 100000 "New York" (some "US Average")).comparison.map
        (fun x => x.equivalentInCompare) = some (100000 * 100 / colIndex "New York") :=
  purchasing_power_formulas "2025-01-01" 100000 "New York" "US Average" 100 (by rfl)

/-- Counterexample to C7: two calls of the purchasing-power converter
with identical income, location and compare_to arguments but made on
different days return different outputs — the source interpolates
`datetime.now()` into the `Analysis date` line. -/
theorem purchasing_power_date_dependent :
    get_purchasing_power "2025-01-01" 100000 "New York" none ≠
      get_purchasing_power "2025-01-02" 100000 "New York" none := by
  intro h
  have hd : ("2025-01-01" : String) = "2025-01-02" :=
    congrArg PPAnalysis.analysisDate h
  exact absurd hd (by decide)

/-- C7 as amended: the purchasing-power converter is deterministic given
its arguments and the current date, and only the analysis-date line
depends on the date: every other component of the output is a function
of income, location and compare_to alone. -/
theorem purchasing_power_deterministic_given_date (d1 d2 : String) (income : ℚ)
    (location : String) (compare_to : Option String) :
    (get_purchasing_power d1 income location compare_to).income =
      (get_purchasing_power d2 income location compare_to).income ∧
    (get_purchasing_power d1 income location compare_to).location =
      (get_purchasing_power d2 income location compare_to).location ∧
    (get_purchasing_power d1 income location compare_to).locationIndex =
      (get_purchasing_power d2 income location compare_to).locationIndex ∧
    (get_purchasing_power d1 income location compare_to).usEquivalent =
      (get_purchasing_power d2 income location compare_to).usEquivalent ∧
    (get_purchasing_power d1 income location compare_to).costNote =
      (get_purchasing_power d2 income location compare_to).costNote ∧
    (get_purchasing_power d1 income location compare_to).comparison =
      (get_purchasing_power d2 income location compare_to).comparison ∧
    (get_purchasing_power d1 income location compare_to).equivalentTable =
      (get_purchasing_power d2 income location compare_to).equivalentTable :=
  ⟨rfl, rfl, rfl, rfl, rfl, rfl, rfl⟩

/-- C9: when the fetch succeeded but the (upper-cased) target currency
code is not in the rate table, `get_exchange_rate` returns the
descriptive error string naming the unknown code as its normal result
(the embedding is total — no exception is possible). -/
theorem exchange_unknown_currency (fetch : ExchangeFetch)
    (from_currency to_currency : String) (amount : ℚ)
    (herr : fetch.error = none)
    (hto : fetch.rates.lookup (strUpper to_currency) = none) :
    get_exchange_rate fetch from_currency to_currency amount =
      .unknownCurrency ("Currency code '" ++ strUpper to_currency ++
        "' not found. Common codes: USD, EUR, GBP, JPY, CAD, AUD, CHF, CNY") := by
  unfold get_exchange_rate
  rw [herr]
  simp [hto]

/-- Witness for C9: converting to the unknown code `"xyz"`. -/
theorem exchange_unknown_currency_witness :
    get_exchange_rate ⟨none, [("EUR", 1)]⟩ "USD" "xyz" 100 =
      .unknownCurrency ("Currency code '" ++ strUpper "xyz" ++
        "' not found. Common codes: USD, EUR, GBP, JPY, CAD, AUD, CHF, CNY") :=
  exchange_unknown_currency ⟨none, [("EUR", 1)]⟩ "USD" "xyz" 100 rfl (by decide)

/-- C10: a location absent from the cost-of-living table silently gets
the baseline index 100, and a compare_to absent from the table silently
drops the comparison section while the rest of the analysis is exactly
what a call without compare_to produces. -/
theorem purchasing_power_unknown_locations (today : String) (income : ℚ)
    (location c : String) (compare_to : Option String) :
    (COST_OF_LIVING_INDEX.lookup location = none →
      (get_purchasing_power today income location compare_to).locationIndex = 100) ∧
    (COST_OF_LIVING_INDEX.lookup c = none →
      get_purchasing_power today income location (some c) =
        get_purchasing_power today income location none) := by
  constructor
  · intro h
    show colIndex location = 100
    simp [colIndex, h]
  · intro h
    unfold get_purchasing_power
    simp [h]

/-- Witness for C10 at locations absent from the table. -/
theorem purchasing_power_unknown_locations_witness :
    (get_purchasing_power "2025-01-01" 50000 "Gotham" (some "Atlantis")).locationIndex = 100 ∧
    get_purchasing_power "2025-01-01" 50000 "Gotham" (some "Atlantis") =
      get_purchasing_power "2025-01-01" 50000 "Gotham" none :=
  ⟨(purchasing_power_unknown_locations "2025-01-01" 50000 "Gotham" "Atlantis"
      (some "Atlantis")).1 (by decide),
   (purchasing_power_unknown_locations "2025-01-01" 50000 "Gotham" "Atlantis"
      (some "Atlantis")).2 (by decide)⟩
